import Mathlib

/-!
Verification development for the transport provisioning and consumption
subsystem of the multicluster-global-hub repository.

The Go sources embedded here are
`operator/pkg/controllers/hubofhubs/globalhub_middleware.go`
(`ReconcileMiddleware`, `ReconcileTransport`, `detectTransportProtocol`,
`renderKafkaMetricsResources`) and the generic consumer
(`NewGenericConsumer`, `GenericConsumer.Start`, `getInitOffset`,
`TransportID`).

External collaborators (the Kubernetes client, the Strimzi/BYO transporter
implementations, the database, the cloudevents client) are modelled as
oracles: records of functions supplying the outcome of each call.  The control
flow, sequencing and error propagation of the embedded functions follow the
Go source line by line; each embedded function also records a trace of the
external calls it performs, so that ordering and abort-on-error claims can
be stated as facts about the produced trace.
-/

/-- Errors are carried as plain messages, mirroring the Go `error` values. -/
abbrev Err := String

/-- Connection credential handed out by a transporter
(`transport.ConnCredential`): bootstrap endpoint plus security material.
The claims never inspect its fields, only its presence and identity. -/
structure ConnCredential where
  bootstrapServer : String
  caCert : String
  deriving DecidableEq, Repr

/-- The three derived topic names (`transport.ClusterTopic`), as used by
`ReconcileTransport` via the fields `SpecTopic`, `StatusTopic`,
`EventTopic`. -/
structure ClusterTopic where
  specTopic : String
  statusTopic : String
  eventTopic : String
  deriving DecidableEq, Repr

/-- The operator-side transport protocol (`transport.TransportProtocol`):
`StrimziTransporter` is the *Managed* mode of the spec, `SecretTransporter`
its *BringYourOwn* mode.  `detectTransportProtocol` only ever produces
these two values. -/
inductive TransportProtocol where
  | strimziTransporter
  | secretTransporter
  deriving DecidableEq, Repr

/-- Modelled from the spec: the default system principal
(`transportprotocol.DefaultGlobalHubKafkaUser`); its definition lives
outside the embedded files and its concrete value is immaterial to every
claim. -/
def defaultGlobalHubKafkaUser : String := "global-hub-kafka-user"

/-- Modelled from the spec: the own logical identity of the hub
(`transportprotocol.GlobalHubClusterName`); scenario A of the spec names it
"global-hub".  Its concrete value is immaterial to every claim. -/
def globalHubClusterName : String := "global-hub"

/-- Poll interval of the credential wait, in seconds (`2*time.Second`). -/
def credentialPollIntervalSeconds : Nat := 2

/-- Poll timeout of the credential wait, in seconds (`10*time.Minute`). -/
def credentialPollTimeoutSeconds : Nat := 600

/-- Requeue delay returned by `ReconcileMiddleware` on failure, in seconds
(`5*time.Second`). -/
def middlewareRequeueSeconds : Nat := 5

/-- Capacity of the error channel in `ReconcileMiddleware`
(`make(chan error, 2)`). -/
def errorChanCapacity : Nat := 2

/-- Oracle for a concrete transporter implementation
(`transport.Transporter`): the outcome of each external call.
`getConnCredential` is indexed by the poll attempt number, modelling broker
state that changes between attempts. -/
structure TransporterOps where
  createUser : String → Except Err Unit
  generateClusterTopic : String → ClusterTopic
  createTopic : ClusterTopic → Except Err Unit
  grantRead : String → String → Except Err Unit
  grantWrite : String → String → Except Err Unit
  getConnCredential : Nat → String → Except Err ConnCredential

/-- Trace events recording the external calls `ReconcileTransport`
performs, in execution order. -/
inductive TransportEvent where
  | renderMetrics
  | newStrimziTransporter
  | newBYOTransporter
  | createUser (principal : String)
  | generateClusterTopic (identity : String)
  | createTopic (t : ClusterTopic)
  | grantRead (principal topic : String)
  | grantWrite (principal topic : String)
  | getConnCredential (attempt : Nat) (principal : String)
  | setTransporter
  deriving DecidableEq, Repr

/-- Outcome of `wait.PollUntilContextTimeout`: the condition succeeded at
some attempt, the condition returned an error at some attempt (which stops
the poll immediately and surfaces that error), or every attempt returned
`(false, nil)` until the deadline. -/
inductive PollOutcome where
  | succeeded (attempt : Nat)
  | aborted (attempt : Nat) (e : Err)
  | timedOut
  deriving DecidableEq, Repr

/-- Core loop of `wait.PollUntilContextTimeout` with `immediate = true`:
attempt `n` runs the condition; `(_, err)` with a non-nil error stops the
poll and returns that error, `(true, nil)` stops with success, and
`(false, nil)` retries until the attempt budget (the deadline) runs out. -/
def pollGo (cond : Nat → Bool × Option Err) : Nat → Nat → PollOutcome
  | _, 0 => .timedOut
  | n, fuel + 1 =>
    match cond n with
    | (_, some e) => .aborted n e
    | (true, none) => .succeeded n
    | (false, none) => pollGo cond (n + 1) fuel

/-- Model of `wait.PollUntilContextTimeout(ctx, interval, timeout, true,
cond)`: with the immediate first attempt, at most `timeout / interval`
attempts fit before the deadline. -/
def pollUntilContextTimeout (intervalSeconds timeoutSeconds : Nat)
    (cond : Nat → Bool × Option Err) : PollOutcome :=
  pollGo cond 0 (timeoutSeconds / intervalSeconds)

/-- The error `wait.PollUntilContextTimeout` reports when the deadline
passes without the condition ever succeeding or erroring. -/
def pollTimeoutErr : Err := "context deadline exceeded"

/-- The poll condition closure of `ReconcileTransport`: call
`trans.GetConnCredential`; on error return `(false, err)` (which, per the
`wait` package, aborts the poll), on success return `(true, nil)`. -/
def pollCond (ops : TransporterOps) (n : Nat) : Bool × Option Err :=
  match ops.getConnCredential n defaultGlobalHubKafkaUser with
  | .error e => (false, some e)
  | .ok _ => (true, none)

/-- The credential value left in the closed-over `conn` variable by the
poll: the credential of the successful attempt, `none` otherwise. -/
def pollConn (ops : TransporterOps) : PollOutcome → Option ConnCredential
  | .succeeded n =>
    match ops.getConnCredential n defaultGlobalHubKafkaUser with
    | .ok c => some c
    | .error _ => none
  | .aborted _ _ => none
  | .timedOut => none

/-- The error value the poll leaves in `err`. -/
def pollErr : PollOutcome → Option Err
  | .succeeded _ => none
  | .aborted _ e => some e
  | .timedOut => some pollTimeoutErr

/-- Trace of `GetConnCredential` calls made by a finished poll. -/
def pollTrace (user : String) (attemptBudget : Nat) : PollOutcome → List TransportEvent
  | .succeeded n => (List.range (n + 1)).map (fun i => .getConnCredential i user)
  | .aborted n _ => (List.range (n + 1)).map (fun i => .getConnCredential i user)
  | .timedOut => (List.range attemptBudget).map (fun i => .getConnCredential i user)

/-- Model of `renderKafkaMetricsResources`: when `mgh.Spec.EnableMetrics`
is set, render the kafka manifests and apply them (the render, discovery
and apply steps are external collaborators collapsed into one fallible
outcome `renderResult`); when the flag is off, do nothing and succeed. -/
def renderKafkaMetricsResources (enableMetrics : Bool)
    (renderResult : Except Err Unit) : List TransportEvent × Except Err Unit :=
  if enableMetrics then ([.renderMetrics], renderResult) else ([], .ok ())

/-- Environment of one `ReconcileTransport` run: the metrics feature flag,
the outcome of the render/apply step, the outcome of
`NewStrimziTransporter` (which can fail), and the BYO transporter returned
by `NewBYOTransporter` (which cannot fail). -/
structure ReconcileTransportEnv where
  enableMetrics : Bool
  renderResult : Except Err Unit
  newStrimzi : Except Err TransporterOps
  byo : TransporterOps

/-- Result of one `ReconcileTransport` run: the trace of external calls,
the returned credential and error, and whether `config.SetTransporter` was
executed. -/
structure TransportResult where
  trace : List TransportEvent
  conn : Option ConnCredential
  err : Option Err
  transporterSet : Bool
  deriving Repr

/-- The provisioning body of `ReconcileTransport` from `CreateUser`
onward, on a constructed transporter `ops`, with `tr0` the trace of the
calls already performed (render and construction).  Step order follows the
source: `CreateUser`, `GenerateClusterTopic`, `CreateTopic`, `GrantRead`
on the event topic, `GrantRead` on the status topic, `GrantWrite` on the
spec topic, then the credential poll; every failing step returns its error
at once, executing none of the later steps.  After the poll,
`config.SetTransporter(trans)` runs whenever `trans != nil`, i.e. on every
path that reaches the poll, and the poll error (if any) is returned
alongside. -/
def provisionAndPoll (ops : TransporterOps) (tr0 : List TransportEvent) : TransportResult :=
  match ops.createUser defaultGlobalHubKafkaUser with
  | .error e => ⟨tr0 ++ [.createUser defaultGlobalHubKafkaUser], none, some e, false⟩
  | .ok _ =>
    let tr1 := tr0 ++ [.createUser defaultGlobalHubKafkaUser,
      .generateClusterTopic globalHubClusterName]
    let topics := ops.generateClusterTopic globalHubClusterName
    match ops.createTopic topics with
    | .error e => ⟨tr1 ++ [.createTopic topics], none, some e, false⟩
    | .ok _ =>
      let tr2 := tr1 ++ [.createTopic topics]
      match ops.grantRead defaultGlobalHubKafkaUser topics.eventTopic with
      | .error e =>
        ⟨tr2 ++ [.grantRead defaultGlobalHubKafkaUser topics.eventTopic], none, some e, false⟩
      | .ok _ =>
        let tr3 := tr2 ++ [.grantRead defaultGlobalHubKafkaUser topics.eventTopic]
        match ops.grantRead defaultGlobalHubKafkaUser topics.statusTopic with
        | .error e =>
          ⟨tr3 ++ [.grantRead defaultGlobalHubKafkaUser topics.statusTopic], none, some e, false⟩
        | .ok _ =>
          let tr4 := tr3 ++ [.grantRead defaultGlobalHubKafkaUser topics.statusTopic]
          match ops.grantWrite defaultGlobalHubKafkaUser topics.specTopic with
          | .error e =>
            ⟨tr4 ++ [.grantWrite defaultGlobalHubKafkaUser topics.specTopic],
              none, some e, false⟩
          | .ok _ =>
            let tr5 := tr4 ++ [.grantWrite defaultGlobalHubKafkaUser topics.specTopic]
            let attemptBudget :=
              credentialPollTimeoutSeconds / credentialPollIntervalSeconds
            let outcome := pollUntilContextTimeout credentialPollIntervalSeconds
              credentialPollTimeoutSeconds (pollCond ops)
            ⟨tr5 ++ pollTrace defaultGlobalHubKafkaUser attemptBudget outcome
                ++ [.setTransporter],
              pollConn ops outcome, pollErr outcome, true⟩

/-- Embedding of `ReconcileTransport` (globalhub_middleware.go:128-197):
render the metrics resources, construct the transporter for the protocol
(`NewStrimziTransporter` can fail, `NewBYOTransporter` cannot), then run
the provisioning body `provisionAndPoll`. -/
def reconcileTransport (env : ReconcileTransportEnv)
    (transProtocol : TransportProtocol) : TransportResult :=
  let rendered := renderKafkaMetricsResources env.enableMetrics env.renderResult
  match rendered.2 with
  | .error e => ⟨rendered.1, none, some e, false⟩
  | .ok _ =>
    match transProtocol with
    | .strimziTransporter =>
      match env.newStrimzi with
      | .error e => ⟨rendered.1 ++ [.newStrimziTransporter], none, some e, false⟩
      | .ok ops => provisionAndPoll ops (rendered.1 ++ [.newStrimziTransporter])
    | .secretTransporter => provisionAndPoll env.byo (rendered.1 ++ [.newBYOTransporter])

/-- Outcome of the Kubernetes secret lookup performed by
`detectTransportProtocol`: the secret exists, the lookup reported
not-found, or the lookup failed with some other error. -/
inductive LookupResult where
  | found
  | notFound
  | otherError (e : Err)
  deriving DecidableEq, Repr

/-- Embedding of `detectTransportProtocol`
(globalhub_middleware.go:249-265): `err == nil` yields
`SecretTransporter` (BringYourOwn); a not-found error yields
`StrimziTransporter` (Managed) with nil error; any other error is returned
unchanged (the protocol slot of the pair carries `SecretTransporter`, the
Go zero-ish value it returns alongside the error). -/
def detectTransportProtocol : LookupResult → TransportProtocol × Option Err
  | .found => (.secretTransporter, none)
  | .notFound => (.strimziTransporter, none)
  | .otherError e => (.secretTransporter, some e)

/-- Postgres connection produced by `ReconcileStorage`
(`postgres.PostgresConnection`); the claims only track its presence. -/
structure PostgresConnection where
  uri : String
  deriving DecidableEq, Repr

/-- Reconciler state shared across reconciliation passes: the `KafkaInit`
flag, the connection held by the kafka CRD controller (collapsing the two
Go checks `KafkaController == nil` and `KafkaController.conn == nil` into
one `Option`), and the shared `MiddlewareConfig` fields. -/
structure MiddlewareState where
  kafkaInit : Bool
  kafkaControllerConn : Option ConnCredential
  transportConn : Option ConnCredential
  storageConn : Option PostgresConnection
  deriving DecidableEq, Repr

/-- Environment of one `ReconcileMiddleware` pass: the secret lookup that
drives protocol detection, the `ReconcileTransport` environment, the
outcome of `addKafkaCRDController`, and the pair returned by
`ReconcileStorage` (connection and error, written to the shared state and
the error channel respectively). -/
structure MiddlewareEnv where
  detect : LookupResult
  transportEnv : ReconcileTransportEnv
  addKafkaCRDController : Except Err Unit
  storageConn : Option PostgresConnection
  storageErr : Option Err

/-- Result of the transport goroutine of `ReconcileMiddleware`
(globalhub_middleware.go:61-100): the error it sent on the channel (if
any), the state it leaves, and which external installation calls ran. -/
structure TransportTaskResult where
  errSent : Option Err
  state : MiddlewareState
  reconcileTransportCalled : Bool
  addControllerCalled : Bool
  deriving Repr

/-- The error built for a missing/unready kafka controller
(`errors.New("the kafka controller is not ready")`). -/
def kafkaControllerNotReadyErr : Err := "the kafka controller is not ready"

/-- Embedding of the transport goroutine body of `ReconcileMiddleware`:
detect the protocol; on `SecretTransporter` run `ReconcileTransport`, send
its error if non-nil and store the returned connection unconditionally; on
`StrimziTransporter`, when `KafkaInit` is unset run `ReconcileTransport`,
then `addKafkaCRDController`, then set `KafkaInit`; in either case require
a ready kafka controller connection, sending a not-ready error otherwise,
and store the controller connection on success. -/
def transportTask (env : MiddlewareEnv) (s : MiddlewareState) : TransportTaskResult :=
  match detectTransportProtocol env.detect with
  | (_, some e) => ⟨some e, s, false, false⟩
  | (transProtocol, none) =>
    match transProtocol with
    | .secretTransporter =>
      let r := reconcileTransport env.transportEnv .secretTransporter
      ⟨r.err, { s with transportConn := r.conn }, true, false⟩
    | .strimziTransporter =>
      if s.kafkaInit then
        match s.kafkaControllerConn with
        | none => ⟨some kafkaControllerNotReadyErr, s, false, false⟩
        | some c => ⟨none, { s with transportConn := some c }, false, false⟩
      else
        let r := reconcileTransport env.transportEnv .strimziTransporter
        match r.err with
        | some e => ⟨some e, s, true, false⟩
        | none =>
          match env.addKafkaCRDController with
          | .error e => ⟨some e, s, true, true⟩
          | .ok _ =>
            let s1 := { s with kafkaInit := true }
            match s1.kafkaControllerConn with
            | none => ⟨some kafkaControllerNotReadyErr, s1, true, true⟩
            | some c => ⟨none, { s1 with transportConn := some c }, true, true⟩

/-- Controller-runtime result: only the requeue delay matters here.
`ctrl.Result{}` is `requeueAfterSeconds = 0`. -/
structure CtrlResult where
  requeueAfterSeconds : Nat
  deriving DecidableEq, Repr

/-- Bookkeeping of one `ReconcileMiddleware` pass, for stating claims about
the error channel and the one-time controller installation. -/
structure MiddlewareRunInfo where
  errorsSent : List Err
  addControllerCalled : Bool
  deriving Repr

/-- The combined error message `ReconcileMiddleware` returns
(`fmt.Errorf("middleware not ready, Error: %v", err)`). -/
def middlewareNotReadyErr (e : Err) : Err :=
  "middleware not ready, Error: " ++ e

/-- Everything one `ReconcileMiddleware` pass produces: the
controller-runtime result, the returned error, the reconciler state after
the pass, and the bookkeeping info. -/
structure MiddlewarePassResult where
  result : CtrlResult
  err : Option Err
  state : MiddlewareState
  info : MiddlewareRunInfo
  deriving Repr

/-- Embedding of `ReconcileMiddleware` (globalhub_middleware.go:53-126).
The transport and storage goroutines run concurrently but write disjoint
fields of the shared state, so the pass is flattened: the transport task
runs, the storage task runs (sending `storageErr` if non-nil and storing
`storageConn` unconditionally), the channel is closed after both, and the
collection loop returns a 5-second requeue with a wrapped error as soon as
it reads an error, or a zero result with nil error when the channel held
none. -/
def reconcileMiddleware (env : MiddlewareEnv) (s : MiddlewareState) :
    MiddlewarePassResult :=
  let t := transportTask env s
  let s1 := { t.state with storageConn := env.storageConn }
  let errorsSent := (match t.errSent with | some e => [e] | none => [])
    ++ (match env.storageErr with | some e => [e] | none => [])
  match errorsSent with
  | [] => ⟨⟨0⟩, none, s1, ⟨errorsSent, t.addControllerCalled⟩⟩
  | e :: rest =>
    ⟨⟨middlewareRequeueSeconds⟩, some (middlewareNotReadyErr e), s1,
      ⟨e :: rest, t.addControllerCalled⟩⟩

/-- A transport envelope (`cloudevents.Event`) as seen by the consumer
callback: identity fields and the data payload. -/
structure Envelope where
  source : String
  eventType : String
  data : String
  deriving DecidableEq, Repr

/-- Payloads are byte strings. -/
abbrev Payload := String

/-- Opaque chunk value extracted from an envelope by the message
assembler. -/
structure ChunkVal where
  groupKey : String
  index : Nat
  total : Nat
  bytes : Payload
  deriving DecidableEq, Repr

/-- Oracle for the message assembler collaborator (`messageAssembler`,
defined outside the embedded files): `messageChunk` returns the chunk when
the envelope carries chunk metadata, and `assemble` returns the assembled
payload exactly when registering this chunk completes its group. -/
structure AssemblerOracle where
  messageChunk : Envelope → Option ChunkVal
  assemble : ChunkVal → Option Payload

/-- What the receive callback did with one envelope: what it forwarded to
the event channel (if anything) and whether it acknowledged the message. -/
structure ReceiveOutcome where
  forwarded : Option Envelope
  ack : Bool
  deriving DecidableEq, Repr

/-- Embedding of the receive callback passed to `StartReceiver` in
`GenericConsumer.Start`: a non-chunk envelope is forwarded unchanged and
acknowledged; an incomplete chunk is acknowledged without forwarding; a
completing chunk has the assembled payload set as the event data
(`event.SetData`, whose failure oracle is `setDataFails`) and the updated
event forwarded, or — when `SetData` fails — is only acknowledged; the
returned result is `ceprotocol.ResultACK` on every path. -/
def receiveCallback (asm : AssemblerOracle)
    (setDataFails : Envelope → Payload → Option Err) (event : Envelope) :
    ReceiveOutcome :=
  match asm.messageChunk event with
  | none => ⟨some event, true⟩
  | some chunk =>
    match asm.assemble chunk with
    | none => ⟨none, true⟩
    | some payload =>
      match setDataFails event payload with
      | some _ => ⟨none, true⟩
      | none => ⟨some { event with data := payload }, true⟩

/-- One row of the `transport` table as used by `getInitOffset`: the topic
name and the JSON payload fields the query and the loop read.  The payload
is modelled structured (a row whose payload does not parse would abort
`getInitOffset` with the unmarshal error; the claims only concern parsed
rows). -/
structure TransportRecord where
  name : String
  ownerIdentity : String
  part : Int
  offset : Int
  deriving DecidableEq, Repr

/-- The SQL filter matching `name` against the POSIX regex `^status*`,
anchored at the
start, so a name matches exactly when it begins with "statu" (the final
star applies to the second "s"). -/
def matchesStatusTopicPattern (s : String) : Bool :=
  "statu".data.isPrefixOf s.data

/-- A starting position handed to the receive binding
(`kafka.TopicPartition`). -/
structure TopicPartition where
  topic : String
  part : Int
  offset : Int
  deriving DecidableEq, Repr

/-- Embedding of `getInitOffset`: query the rows whose name matches the
status pattern and whose payload ownerIdentity is non-empty and equals the
given cluster identity, then map each row to a
(topic, partition, offset) start position. -/
def getInitOffset (kafkaClusterIdentity : String) (db : List TransportRecord) :
    List TopicPartition :=
  let positions := db.filter (fun r =>
    matchesStatusTopicPattern r.name &&
    !(r.ownerIdentity = "") && r.ownerIdentity = kafkaClusterIdentity)
  positions.map (fun r => ⟨r.name, r.part, r.offset⟩)

/-- Embedding of the offset-recovery prologue of `GenericConsumer.Start`:
when database offsets are enabled, `getInitOffset` runs and, when it
returns a non-empty list, the receive context is wrapped with
`WithTopicPartitionOffsets` carrying exactly that list before the receiver
starts; `some` is the wrapped context, `none` the unmodified context whose
binding starts from its default position. -/
def consumerStartPositions (enableDatabaseOffset : Bool)
    (clusterIdentity : String) (db : List TransportRecord) :
    Option (List TopicPartition) :=
  if enableDatabaseOffset then
    let offsets := getInitOffset clusterIdentity db
    if offsets.length > 0 then some offsets else none
  else none

/-- The transport type strings the consumer switches on:
`transport.Kafka`, `transport.Chan`, or anything else (the default branch
that fails with the unsupported-type error). -/
inductive ConsumerTransportType where
  | kafka
  | chan
  | invalid (s : String)
  deriving DecidableEq, Repr

/-- Environment of one `NewGenericConsumer` call: the fallible collaborator
outcomes (`getConfluentReceiverProtocol`, `cloudevents.NewClient`, the
option functions). -/
structure NewConsumerEnv where
  confluentReceiverErr : Option Err
  newClientErr : Option Err
  applyOptionsErr : Option Err

/-- The fields of a constructed `GenericConsumer` the claims track. -/
structure GenericConsumer where
  clusterIdentity : String
  consumeTopics : List String
  deriving DecidableEq, Repr

/-- The cluster identity assigned on the in-process (`Chan`) branch of
`NewGenericConsumer`. -/
def chanClusterIdentity : String := "kafka-cluster-chan"

/-- Embedding of `NewGenericConsumer`, threading the package-level variable
`transportID` as explicit state: each switch branch resolves the receiver
and the cluster identity (or fails), then the cloudevents client is built,
the consumer struct is made, the options are applied, and only after all
of that succeeds is `transportID` overwritten with the new cluster
identity.  The pair is (call result, transportID after the call). -/
def newGenericConsumer (env : NewConsumerEnv) (transportType : ConsumerTransportType)
    (kafkaClusterIdentity : String) (topics : List String)
    (transportID : String) : Except Err GenericConsumer × String :=
  let resolved : Except Err String :=
    match transportType with
    | .kafka =>
      match env.confluentReceiverErr with
      | some e => .error e
      | none => .ok kafkaClusterIdentity
    | .chan => .ok chanClusterIdentity
    | .invalid s => .error ("transport-type - " ++ s ++ " is not a valid option")
  match resolved with
  | .error e => (.error e, transportID)
  | .ok clusterIdentity =>
    match env.newClientErr with
    | some e => (.error e, transportID)
    | none =>
      match env.applyOptionsErr with
      | some e => (.error e, transportID)
      | none => (.ok ⟨clusterIdentity, topics⟩, clusterIdentity)

/-- Embedding of `TransportID()`: read the package-level variable. -/
def transportIDRead (transportID : String) : String := transportID

/-- All-succeeding transporter oracle, used by concrete instances. -/
def okOps : TransporterOps where
  createUser := fun _ => .ok ()
  generateClusterTopic := fun identity =>
    ⟨"spec." ++ identity, "status." ++ identity, "event." ++ identity⟩
  createTopic := fun _ => .ok ()
  grantRead := fun _ _ => .ok ()
  grantWrite := fun _ _ => .ok ()
  getConnCredential := fun _ _ => .ok ⟨"kafka:9092", "ca-cert"⟩

/-- Transporter oracle whose credential getter always reports
not-ready. -/
def notReadyOps : TransporterOps :=
  { okOps with getConnCredential := fun _ _ => .error "kafka credential not ready" }

/-- Transporter oracle whose `CreateUser` call always fails. -/
def userFailOps : TransporterOps :=
  { okOps with createUser := fun _ => .error "create user failed" }

/-- Transport environment with metrics disabled and both constructions
yielding the given oracle. -/
def mkTransportEnv (ops : TransporterOps) : ReconcileTransportEnv :=
  ⟨false, .ok (), .ok ops, ops⟩

/-- Transport environment with metrics enabled (render succeeding) and
both constructions yielding the given oracle. -/
def mkMetricsEnv (ops : TransporterOps) : ReconcileTransportEnv :=
  ⟨true, .ok (), .ok ops, ops⟩

/-- The transporter `ReconcileTransport` would construct for a protocol:
the Strimzi construction outcome for Managed, the (infallible) BYO
transporter for BringYourOwn. -/
def constructedOps (env : ReconcileTransportEnv) :
    TransportProtocol → Except Err TransporterOps
  | .strimziTransporter => env.newStrimzi
  | .secretTransporter => .ok env.byo

/-- Fresh reconciler state: first pass, nothing set up yet. -/
def idleState : MiddlewareState := ⟨false, none, none, none⟩

/-- Reconciler state after the kafka CRD controller was installed
(`KafkaInit` set) but before its watcher reported a ready connection. -/
def kafkaPendingState : MiddlewareState := ⟨true, none, none, none⟩

/-- Middleware environment of a pass on which the transport secret is
absent (Managed protocol), the transport oracle succeeds, the controller
installation succeeds, and storage succeeds. -/
def managedOkEnv : MiddlewareEnv :=
  ⟨.notFound, mkTransportEnv okOps, .ok (), some ⟨"postgres:5432"⟩, none⟩

/-- Middleware environment of a pass on which the transport secret exists
(BringYourOwn), transport provisioning succeeds, and storage fails. -/
def storageFailEnv : MiddlewareEnv :=
  ⟨.found, mkTransportEnv okOps, .ok (), none, some "postgres not ready"⟩

/-- The offset store content of spec scenario C. -/
def scenarioCDb : List TransportRecord :=
  [⟨"status.hub1", "cluster-x", 0, 42⟩]

/-- Consumer-construction environment in which every collaborator
succeeds. -/
def okConsumerEnv : NewConsumerEnv := ⟨none, none, none⟩

/-- Assembler oracle that treats every envelope as a complete message. -/
def noChunkAssembler : AssemblerOracle where
  messageChunk := fun _ => none
  assemble := fun _ => none

/-- A sample envelope for concrete instances. -/
def sampleEvent : Envelope := ⟨"hub1", "status.update", "payload-bytes"⟩

/-- Number of condition attempts that fit before the poll deadline. -/
def pollAttemptBudget : Nat :=
  credentialPollTimeoutSeconds / credentialPollIntervalSeconds

/-- The credential wait of `ReconcileTransport`: the poll combinator at
the interval and timeout of the source, on the condition closure over the
transporter. -/
def waitForCredential (ops : TransporterOps) : PollOutcome :=
  pollUntilContextTimeout credentialPollIntervalSeconds credentialPollTimeoutSeconds
    (pollCond ops)

/-- Leading trace of a Managed `ReconcileTransport` run: the render events
followed by the Strimzi transporter construction. -/
def managedPre (env : ReconcileTransportEnv) : List TransportEvent :=
  (renderKafkaMetricsResources env.enableMetrics env.renderResult).1
    ++ [.newStrimziTransporter]

/-- The six provisioning calls of `ReconcileTransport` in source order,
for a given derived topic set. -/
def provisionEvents (topics : ClusterTopic) : List TransportEvent :=
  [.createUser defaultGlobalHubKafkaUser,
   .generateClusterTopic globalHubClusterName,
   .createTopic topics,
   .grantRead defaultGlobalHubKafkaUser topics.eventTopic,
   .grantRead defaultGlobalHubKafkaUser topics.statusTopic,
   .grantWrite defaultGlobalHubKafkaUser topics.specTopic]

/-- C2: the claim states that a failed `getConnCredential` attempt does
not abort the wait loop and that, with a getter that always reports
not-ready, the wait returns a timeout error at or after the 10-minute
deadline.  The code instead returns `(false, err)` from the poll
condition, and `wait.PollUntilContextTimeout` stops polling as soon as the
condition returns an error: with an always-failing getter the poll aborts
at attempt 0 and `ReconcileTransport` returns the getter error itself —
a single `GetConnCredential` call appears in the trace although the
deadline would allow 300 attempts. -/
theorem claim_C2_code_bug :
    pollUntilContextTimeout credentialPollIntervalSeconds credentialPollTimeoutSeconds
        (fun _ => (false, some "kafka credential not ready"))
      = .aborted 0 "kafka credential not ready" ∧
    (reconcileTransport (mkTransportEnv notReadyOps) .strimziTransporter).err
      = some "kafka credential not ready" ∧
    (reconcileTransport (mkTransportEnv notReadyOps) .strimziTransporter).trace
      = [.newStrimziTransporter,
         .createUser defaultGlobalHubKafkaUser,
         .generateClusterTopic globalHubClusterName,
         .createTopic ⟨"spec.global-hub", "status.global-hub", "event.global-hub"⟩,
         .grantRead defaultGlobalHubKafkaUser "event.global-hub",
         .grantRead defaultGlobalHubKafkaUser "status.global-hub",
         .grantWrite defaultGlobalHubKafkaUser "spec.global-hub",
         .getConnCredential 0 defaultGlobalHubKafkaUser,
         .setTransporter] ∧
    pollAttemptBudget = 300 := by
  exact ⟨rfl, rfl, rfl, rfl⟩

/-- C4: `detectTransportProtocol` returns the BringYourOwn protocol
(`SecretTransporter`) with nil error exactly when the well-known secret
exists, the Managed protocol (`StrimziTransporter`) with nil error exactly
when the lookup reports not-found, and propagates any other lookup error
unchanged as a non-nil error. -/
theorem claim_C4_detect (l : LookupResult) :
    (detectTransportProtocol l = (.secretTransporter, none) ↔ l = .found) ∧
    (detectTransportProtocol l = (.strimziTransporter, none) ↔ l = .notFound) ∧
    (∀ e, l = .otherError e →
      detectTransportProtocol l = (.secretTransporter, some e)) := by
  cases l <;> simp [detectTransportProtocol]

/-- Witness for C4 at a concrete lookup outcome. -/
theorem claim_C4_detect_witness :
    detectTransportProtocol .found = (.secretTransporter, none) :=
  (claim_C4_detect .found).1.mpr rfl

/-- C5: the receive callback of `GenericConsumer.Start` forwards a
non-chunk envelope unchanged, consumes an incomplete chunk silently,
forwards a completing chunk with its data replaced by the assembled
payload when `SetData` succeeds (and forwards nothing when `SetData`
fails), and acknowledges the message on every one of these paths. -/
theorem claim_C5_receive (asm : AssemblerOracle)
    (setDataFails : Envelope → Payload → Option Err) (event : Envelope) :
    (receiveCallback asm setDataFails event).ack = true ∧
    (asm.messageChunk event = none →
      (receiveCallback asm setDataFails event).forwarded = some event) ∧
    (∀ chunk, asm.messageChunk event = some chunk →
      asm.assemble chunk = none →
      (receiveCallback asm setDataFails event).forwarded = none) ∧
    (∀ chunk payload, asm.messageChunk event = some chunk →
      asm.assemble chunk = some payload → setDataFails event payload = none →
      (receiveCallback asm setDataFails event).forwarded
        = some { event with data := payload }) ∧
    (∀ chunk payload e, asm.messageChunk event = some chunk →
      asm.assemble chunk = some payload → setDataFails event payload = some e →
      (receiveCallback asm setDataFails event).forwarded = none) := by
  refine ⟨?_, ?_, ?_, ?_, ?_⟩
  · rcases h1 : asm.messageChunk event with _ | chunk
    · simp [receiveCallback, h1]
    · rcases h2 : asm.assemble chunk with _ | p
      · simp [receiveCallback, h1, h2]
      · rcases h3 : setDataFails event p with _ | e <;>
          simp [receiveCallback, h1, h2, h3]
  · intro h1
    simp [receiveCallback, h1]
  · intro chunk h1 h2
    simp [receiveCallback, h1, h2]
  · intro chunk payload h1 h2 h3
    simp [receiveCallback, h1, h2, h3]
  · intro chunk payload e h1 h2 h3
    simp [receiveCallback, h1, h2, h3]

/-- Witness for C5: a non-chunk envelope is acknowledged and forwarded
unchanged. -/
theorem claim_C5_receive_witness :
    (receiveCallback noChunkAssembler (fun _ _ => none) sampleEvent).ack = true ∧
    (receiveCallback noChunkAssembler (fun _ _ => none) sampleEvent).forwarded
      = some sampleEvent :=
  ⟨(claim_C5_receive noChunkAssembler (fun _ _ => none) sampleEvent).1,
   (claim_C5_receive noChunkAssembler (fun _ _ => none) sampleEvent).2.1 rfl⟩

/-- C7: `getInitOffset` yields a start position for exactly the persisted
records whose owner identity is non-empty and equals the consumer cluster
identity and whose topic name matches the status-topic pattern, mapping
each record to its (topic, partition, offset); in the concrete scenario, a
stored record for topic "status.hub1", partition 0, offset 42 owned by
"cluster-x" gives that consumer the start position (status.hub1, 0, 42),
handed to the receive binding before the loop begins. -/
theorem claim_C7_offsets :
    (∀ identity db tp, tp ∈ getInitOffset identity db ↔
      ∃ r, r ∈ db ∧ matchesStatusTopicPattern r.name = true ∧
        r.ownerIdentity ≠ "" ∧ r.ownerIdentity = identity ∧
        tp = ⟨r.name, r.part, r.offset⟩) ∧
    consumerStartPositions true "cluster-x" scenarioCDb
      = some [⟨"status.hub1", 0, 42⟩] := by
  constructor
  · intro identity db tp
    simp only [getInitOffset, List.mem_map, List.mem_filter, Bool.and_eq_true,
      Bool.not_eq_true', decide_eq_true_eq, decide_eq_false_iff_not, and_assoc]
    constructor
    · rintro ⟨r, hmem, hpat, hne, hid, htp⟩
      exact ⟨r, hmem, hpat, hne, hid, htp.symm⟩
    · rintro ⟨r, hmem, hpat, hne, hid, htp⟩
      exact ⟨r, hmem, hpat, hne, hid, htp.symm⟩
  · decide

/-- Witness for C7: the scenario record is among the computed start
positions. -/
theorem claim_C7_offsets_witness :
    TopicPartition.mk "status.hub1" 0 42
      ∈ getInitOffset "cluster-x" scenarioCDb :=
  (claim_C7_offsets.1 "cluster-x" scenarioCDb ⟨"status.hub1", 0, 42⟩).mpr
    ⟨⟨"status.hub1", "cluster-x", 0, 42⟩, by decide, by decide, by decide, rfl, rfl⟩

/-- C9: every successful `NewGenericConsumer` call overwrites the
package-level `transportID` with the new consumer cluster identity, so
`TransportID()` afterwards returns the identity of the most recently
constructed consumer; an in-process (`Chan`) consumer always has the
constant identity "kafka-cluster-chan", so constructing one after a kafka
consumer changes the value observed by code holding the first consumer. -/
theorem claim_C9_transportID :
    (∀ env tt id topics g c g1,
      newGenericConsumer env tt id topics g = (.ok c, g1) →
      g1 = c.clusterIdentity ∧ transportIDRead g1 = c.clusterIdentity) ∧
    (∀ env id topics g c g1,
      newGenericConsumer env .chan id topics g = (.ok c, g1) →
      c.clusterIdentity = chanClusterIdentity) ∧
    ((newGenericConsumer okConsumerEnv .kafka "cluster-x" ["status.hub1"] "").2
      = "cluster-x" ∧
     (newGenericConsumer okConsumerEnv .chan "cluster-x" []
        (newGenericConsumer okConsumerEnv .kafka "cluster-x" ["status.hub1"] "").2).2
      = chanClusterIdentity ∧
     chanClusterIdentity ≠ "cluster-x") := by
  refine ⟨?_, ?_, rfl, rfl, by decide⟩
  · intro env tt id topics g c g1 h
    rcases tt with _ | _ | s
    · rcases h1 : env.confluentReceiverErr with _ | e <;>
        rcases h2 : env.newClientErr with _ | e2 <;>
        rcases h3 : env.applyOptionsErr with _ | e3 <;>
        simp [newGenericConsumer, h1, h2, h3] at h
      rcases h with ⟨hc, hg⟩
      subst hc hg
      exact ⟨rfl, rfl⟩
    · rcases h2 : env.newClientErr with _ | e2 <;>
        rcases h3 : env.applyOptionsErr with _ | e3 <;>
        simp [newGenericConsumer, h2, h3] at h
      rcases h with ⟨hc, hg⟩
      subst hc hg
      exact ⟨rfl, rfl⟩
    · simp [newGenericConsumer] at h
  · intro env id topics g c g1 h
    rcases h2 : env.newClientErr with _ | e2 <;>
      rcases h3 : env.applyOptionsErr with _ | e3 <;>
      simp [newGenericConsumer, h2, h3] at h
    rcases h with ⟨hc, _⟩
    subst hc
    rfl

/-- Witness for C9 at a concrete successful construction. -/
theorem claim_C9_transportID_witness :
    ("cluster-x" : String) = (GenericConsumer.mk "cluster-x" ["status.hub1"]).clusterIdentity ∧
    transportIDRead "cluster-x"
      = (GenericConsumer.mk "cluster-x" ["status.hub1"]).clusterIdentity :=
  claim_C9_transportID.1 okConsumerEnv .kafka "cluster-x" ["status.hub1"] ""
    ⟨"cluster-x", ["status.hub1"]⟩ "cluster-x" rfl

/-- C1: on the Managed path (with the transporter constructed), the
provisioning steps run in source order — create the default principal,
derive the topic set for the hub identity, create the topics, grant Read
on the event and status topics and Write on the spec topic, then poll for
the credential — and a failing step makes `ReconcileTransport` return that
error of that step immediately, with no later step appearing in the trace. -/
theorem claim_C1_managed_sequence (env : ReconcileTransportEnv)
    (ops : TransporterOps) (hs : env.newStrimzi = .ok ops)
    (hr : (renderKafkaMetricsResources env.enableMetrics env.renderResult).2 = .ok ()) :
    (∀ e, ops.createUser defaultGlobalHubKafkaUser = .error e →
      reconcileTransport env .strimziTransporter
        = ⟨managedPre env ++ [.createUser defaultGlobalHubKafkaUser],
            none, some e, false⟩) ∧
    (∀ e, ops.createUser defaultGlobalHubKafkaUser = .ok () →
      ops.createTopic (ops.generateClusterTopic globalHubClusterName) = .error e →
      reconcileTransport env .strimziTransporter
        = ⟨managedPre env
              ++ [.createUser defaultGlobalHubKafkaUser,
                  .generateClusterTopic globalHubClusterName,
                  .createTopic (ops.generateClusterTopic globalHubClusterName)],
            none, some e, false⟩) ∧
    (∀ e, ops.createUser defaultGlobalHubKafkaUser = .ok () →
      ops.createTopic (ops.generateClusterTopic globalHubClusterName) = .ok () →
      ops.grantRead defaultGlobalHubKafkaUser
          (ops.generateClusterTopic globalHubClusterName).eventTopic = .error e →
      reconcileTransport env .strimziTransporter
        = ⟨managedPre env
              ++ [.createUser defaultGlobalHubKafkaUser,
                  .generateClusterTopic globalHubClusterName,
                  .createTopic (ops.generateClusterTopic globalHubClusterName),
                  .grantRead defaultGlobalHubKafkaUser
                    (ops.generateClusterTopic globalHubClusterName).eventTopic],
            none, some e, false⟩) ∧
    (∀ e, ops.createUser defaultGlobalHubKafkaUser = .ok () →
      ops.createTopic (ops.generateClusterTopic globalHubClusterName) = .ok () →
      ops.grantRead defaultGlobalHubKafkaUser
          (ops.generateClusterTopic globalHubClusterName).eventTopic = .ok () →
      ops.grantRead defaultGlobalHubKafkaUser
          (ops.generateClusterTopic globalHubClusterName).statusTopic = .error e →
      reconcileTransport env .strimziTransporter
        = ⟨managedPre env
              ++ [.createUser defaultGlobalHubKafkaUser,
                  .generateClusterTopic globalHubClusterName,
                  .createTopic (ops.generateClusterTopic globalHubClusterName),
                  .grantRead defaultGlobalHubKafkaUser
                    (ops.generateClusterTopic globalHubClusterName).eventTopic,
                  .grantRead defaultGlobalHubKafkaUser
                    (ops.generateClusterTopic globalHubClusterName).statusTopic],
            none, some e, false⟩) ∧
    (∀ e, ops.createUser defaultGlobalHubKafkaUser = .ok () →
      ops.createTopic (ops.generateClusterTopic globalHubClusterName) = .ok () →
      ops.grantRead defaultGlobalHubKafkaUser
          (ops.generateClusterTopic globalHubClusterName).eventTopic = .ok () →
      ops.grantRead defaultGlobalHubKafkaUser
          (ops.generateClusterTopic globalHubClusterName).statusTopic = .ok () →
      ops.grantWrite defaultGlobalHubKafkaUser
          (ops.generateClusterTopic globalHubClusterName).specTopic = .error e →
      reconcileTransport env .strimziTransporter
        = ⟨managedPre env
              ++ [.createUser defaultGlobalHubKafkaUser,
                  .generateClusterTopic globalHubClusterName,
                  .createTopic (ops.generateClusterTopic globalHubClusterName),
                  .grantRead defaultGlobalHubKafkaUser
                    (ops.generateClusterTopic globalHubClusterName).eventTopic,
                  .grantRead defaultGlobalHubKafkaUser
                    (ops.generateClusterTopic globalHubClusterName).statusTopic,
                  .grantWrite defaultGlobalHubKafkaUser
                    (ops.generateClusterTopic globalHubClusterName).specTopic],
            none, some e, false⟩) ∧
    (ops.createUser defaultGlobalHubKafkaUser = .ok () →
      ops.createTopic (ops.generateClusterTopic globalHubClusterName) = .ok () →
      ops.grantRead defaultGlobalHubKafkaUser
          (ops.generateClusterTopic globalHubClusterName).eventTopic = .ok () →
      ops.grantRead defaultGlobalHubKafkaUser
          (ops.generateClusterTopic globalHubClusterName).statusTopic = .ok () →
      ops.grantWrite defaultGlobalHubKafkaUser
          (ops.generateClusterTopic globalHubClusterName).specTopic = .ok () →
      reconcileTransport env .strimziTransporter
        = ⟨managedPre env
              ++ provisionEvents (ops.generateClusterTopic globalHubClusterName)
              ++ pollTrace defaultGlobalHubKafkaUser pollAttemptBudget
                  (waitForCredential ops)
              ++ [.setTransporter],
            pollConn ops (waitForCredential ops),
            pollErr (waitForCredential ops), true⟩) := by
  refine ⟨?_, ?_, ?_, ?_, ?_, ?_⟩
  · intro e h1
    simp [reconcileTransport, hr, hs, provisionAndPoll, h1, managedPre]
  · intro e h1 h2
    simp [reconcileTransport, hr, hs, provisionAndPoll, h1, h2, managedPre]
  · intro e h1 h2 h3
    simp [reconcileTransport, hr, hs, provisionAndPoll, h1, h2, h3, managedPre]
  · intro e h1 h2 h3 h4
    simp [reconcileTransport, hr, hs, provisionAndPoll, h1, h2, h3, h4, managedPre]
  · intro e h1 h2 h3 h4 h5
    simp [reconcileTransport, hr, hs, provisionAndPoll, h1, h2, h3, h4, h5, managedPre]
  · intro h1 h2 h3 h4 h5
    simp [reconcileTransport, hr, hs, provisionAndPoll, h1, h2, h3, h4, h5,
      managedPre, provisionEvents, waitForCredential, pollAttemptBudget]

/-- Witness for C1: with a `CreateUser` that fails, the run stops at that
step and returns its error. -/
theorem claim_C1_managed_sequence_witness :
    reconcileTransport (mkTransportEnv userFailOps) .strimziTransporter
      = ⟨managedPre (mkTransportEnv userFailOps)
            ++ [.createUser defaultGlobalHubKafkaUser],
          none, some "create user failed", false⟩ :=
  (claim_C1_managed_sequence (mkTransportEnv userFailOps) userFailOps rfl rfl).1
    "create user failed" rfl

/-- C3: `ReconcileMiddleware` collects task outcomes through an error
channel of capacity exactly 2, never sending more errors than the channel
holds; if either the transport task or the storage task reported an error
it returns a 5-second requeue together with a non-nil error, and only when
neither reported an error does it return a zero result with nil error; on
a mixed outcome the transport connection obtained by the successful task
is still stored in the shared middleware state. -/
theorem claim_C3_orchestrator (env : MiddlewareEnv) (s : MiddlewareState) :
    errorChanCapacity = 2 ∧
    middlewareRequeueSeconds = 5 ∧
    (reconcileMiddleware env s).info.errorsSent.length ≤ errorChanCapacity ∧
    ((transportTask env s).errSent ≠ none ∨ env.storageErr ≠ none →
      (reconcileMiddleware env s).result = ⟨middlewareRequeueSeconds⟩ ∧
      (reconcileMiddleware env s).err ≠ none) ∧
    ((transportTask env s).errSent = none ∧ env.storageErr = none →
      (reconcileMiddleware env s).result = ⟨0⟩ ∧
      (reconcileMiddleware env s).err = none) ∧
    (∀ c e, (transportTask env s).errSent = none →
      (transportTask env s).state.transportConn = some c →
      env.storageErr = some e →
      (reconcileMiddleware env s).state.transportConn = some c ∧
      (reconcileMiddleware env s).result = ⟨middlewareRequeueSeconds⟩ ∧
      (reconcileMiddleware env s).err ≠ none) := by
  refine ⟨rfl, rfl, ?_, ?_, ?_, ?_⟩
  · rcases h1 : (transportTask env s).errSent with _ | e1 <;>
      rcases h2 : env.storageErr with _ | e2 <;>
      simp [reconcileMiddleware, h1, h2, errorChanCapacity]
  · rcases h1 : (transportTask env s).errSent with _ | e1 <;>
      rcases h2 : env.storageErr with _ | e2 <;>
      simp [reconcileMiddleware, h1, h2]
  · rcases h1 : (transportTask env s).errSent with _ | e1 <;>
      rcases h2 : env.storageErr with _ | e2 <;>
      simp [reconcileMiddleware, h1, h2]
  · intro c e h1 hc h2
    simp [reconcileMiddleware, h1, h2, hc]

/-- Witness for C3: BringYourOwn transport provisioning succeeds while
storage fails; the pass reports a 5-second requeue with an error but the
obtained kafka connection is retained in the shared state. -/
theorem claim_C3_orchestrator_witness :
    (reconcileMiddleware storageFailEnv idleState).state.transportConn
      = some ⟨"kafka:9092", "ca-cert"⟩ ∧
    (reconcileMiddleware storageFailEnv idleState).result
      = ⟨middlewareRequeueSeconds⟩ ∧
    (reconcileMiddleware storageFailEnv idleState).err ≠ none :=
  (claim_C3_orchestrator storageFailEnv idleState).2.2.2.2.2
    ⟨"kafka:9092", "ca-cert"⟩ "postgres not ready" rfl rfl rfl

/-- Counterexample for C6: with the Managed protocol detected, the watcher
already installed (`KafkaInit` set) and the controller connection not yet
ready, `ReconcileMiddleware` does NOT requeue "without erroring out": it
returns the non-nil error wrapping "the kafka controller is not ready"
alongside the 5-second requeue. -/
theorem claim_C6_cex :
    (reconcileMiddleware managedOkEnv kafkaPendingState).err
      = some (middlewareNotReadyErr kafkaControllerNotReadyErr) ∧
    (reconcileMiddleware managedOkEnv kafkaPendingState).err ≠ none ∧
    (reconcileMiddleware managedOkEnv kafkaPendingState).result
      = ⟨middlewareRequeueSeconds⟩ := by
  have h : (reconcileMiddleware managedOkEnv kafkaPendingState).err
      = some (middlewareNotReadyErr kafkaControllerNotReadyErr) := rfl
  refine ⟨h, ?_, rfl⟩
  rw [h]
  exact Option.some_ne_none _

/-- C6 (amended): when the Managed control plane is not yet ready on a
pass — watcher installed (`KafkaInit` set) but no ready internal
connection — the orchestrator sends the fixed not-ready error for the
transport task and requeues the pass after 5 seconds with a non-nil
wrapped error (the standard retry path, not an error-free requeue); on
such a pass neither `ReconcileTransport` nor the watcher installation runs
again, and the watcher installation happens at most once across passes:
any pass starting with `KafkaInit` set never calls
`addKafkaCRDController`, while a first pass whose transport provisioning
and installation succeed sets `KafkaInit` for all later passes. -/
theorem claim_C6_amended (env : MiddlewareEnv) (s : MiddlewareState)
    (hd : env.detect = .notFound) (hk : s.kafkaInit = true)
    (hc : s.kafkaControllerConn = none) :
    (transportTask env s).errSent = some kafkaControllerNotReadyErr ∧
    (transportTask env s).reconcileTransportCalled = false ∧
    (reconcileMiddleware env s).info.addControllerCalled = false ∧
    (reconcileMiddleware env s).result = ⟨middlewareRequeueSeconds⟩ ∧
    (reconcileMiddleware env s).err ≠ none ∧
    (reconcileMiddleware env s).state.kafkaInit = true ∧
    (∀ env2 s2, s2.kafkaInit = false → env2.detect = .notFound →
      (reconcileTransport env2.transportEnv .strimziTransporter).err = none →
      env2.addKafkaCRDController = .ok () →
      (reconcileMiddleware env2 s2).state.kafkaInit = true ∧
      (reconcileMiddleware env2 s2).info.addControllerCalled = true) := by
  have ht : transportTask env s = ⟨some kafkaControllerNotReadyErr, s, false, false⟩ := by
    simp [transportTask, detectTransportProtocol, hd, hk, hc]
  refine ⟨by rw [ht], by rw [ht], ?_, ?_, ?_, ?_, ?_⟩
  · simp [reconcileMiddleware, ht]
  · simp [reconcileMiddleware, ht]
  · simp [reconcileMiddleware, ht]
  · simp [reconcileMiddleware, ht, hk]
  · intro env2 s2 hk2 hd2 he2 ha2
    rcases hcc : s2.kafkaControllerConn with _ | c <;>
      rcases hse : env2.storageErr with _ | e2 <;>
      simp [reconcileMiddleware, transportTask, detectTransportProtocol,
        hd2, hk2, he2, ha2, hcc, hse]

/-- Witness for C6 at the concrete pending state. -/
theorem claim_C6_amended_witness :
    (reconcileMiddleware managedOkEnv kafkaPendingState).info.addControllerCalled
      = false ∧
    (reconcileMiddleware managedOkEnv kafkaPendingState).result
      = ⟨middlewareRequeueSeconds⟩ :=
  ⟨(claim_C6_amended managedOkEnv kafkaPendingState rfl rfl rfl).2.2.1,
   (claim_C6_amended managedOkEnv kafkaPendingState rfl rfl rfl).2.2.2.1⟩

/-- No credential-poll attempt ever appears as a render event. -/
theorem renderMetrics_not_mem_pollTrace (u : String) (b : Nat) (o : PollOutcome) :
    TransportEvent.renderMetrics ∉ pollTrace u b o := by
  cases o <;> simp [pollTrace]

/-- The provisioning body only appends non-render events after the leading
trace it is given. -/
theorem provisionAndPoll_trace_split (ops : TransporterOps) (tr0 : List TransportEvent) :
    ∃ rest, (provisionAndPoll ops tr0).trace = tr0 ++ rest ∧
      TransportEvent.renderMetrics ∉ rest := by
  rcases h1 : ops.createUser defaultGlobalHubKafkaUser with e1 | u1
  · refine ⟨[.createUser defaultGlobalHubKafkaUser], ?_, by simp⟩
    simp [provisionAndPoll, h1]
  · rcases h2 : ops.createTopic (ops.generateClusterTopic globalHubClusterName) with e2 | u2
    · refine ⟨[.createUser defaultGlobalHubKafkaUser,
        .generateClusterTopic globalHubClusterName,
        .createTopic (ops.generateClusterTopic globalHubClusterName)], ?_, by simp⟩
      simp [provisionAndPoll, h1, h2]
    · rcases h3 : ops.grantRead defaultGlobalHubKafkaUser
          (ops.generateClusterTopic globalHubClusterName).eventTopic with e3 | u3
      · refine ⟨[.createUser defaultGlobalHubKafkaUser,
          .generateClusterTopic globalHubClusterName,
          .createTopic (ops.generateClusterTopic globalHubClusterName),
          .grantRead defaultGlobalHubKafkaUser
            (ops.generateClusterTopic globalHubClusterName).eventTopic], ?_, by simp⟩
        simp [provisionAndPoll, h1, h2, h3]
      · rcases h4 : ops.grantRead defaultGlobalHubKafkaUser
            (ops.generateClusterTopic globalHubClusterName).statusTopic with e4 | u4
        · refine ⟨[.createUser defaultGlobalHubKafkaUser,
            .generateClusterTopic globalHubClusterName,
            .createTopic (ops.generateClusterTopic globalHubClusterName),
            .grantRead defaultGlobalHubKafkaUser
              (ops.generateClusterTopic globalHubClusterName).eventTopic,
            .grantRead defaultGlobalHubKafkaUser
              (ops.generateClusterTopic globalHubClusterName).statusTopic], ?_, by simp⟩
          simp [provisionAndPoll, h1, h2, h3, h4]
        · rcases h5 : ops.grantWrite defaultGlobalHubKafkaUser
              (ops.generateClusterTopic globalHubClusterName).specTopic with e5 | u5
          · refine ⟨[.createUser defaultGlobalHubKafkaUser,
              .generateClusterTopic globalHubClusterName,
              .createTopic (ops.generateClusterTopic globalHubClusterName),
              .grantRead defaultGlobalHubKafkaUser
                (ops.generateClusterTopic globalHubClusterName).eventTopic,
              .grantRead defaultGlobalHubKafkaUser
                (ops.generateClusterTopic globalHubClusterName).statusTopic,
              .grantWrite defaultGlobalHubKafkaUser
                (ops.generateClusterTopic globalHubClusterName).specTopic], ?_, by simp⟩
            simp [provisionAndPoll, h1, h2, h3, h4, h5]
          · refine ⟨provisionEvents (ops.generateClusterTopic globalHubClusterName)
              ++ pollTrace defaultGlobalHubKafkaUser pollAttemptBudget
                  (waitForCredential ops)
              ++ [.setTransporter], ?_, ?_⟩
            · simp [provisionAndPoll, h1, h2, h3, h4, h5, provisionEvents,
                waitForCredential, pollAttemptBudget]
            · simp only [List.mem_append, List.mem_singleton, provisionEvents,
                List.mem_cons, List.not_mem_nil]
              push_neg
              refine ⟨⟨by simp, ?_⟩, by simp⟩
              exact renderMetrics_not_mem_pollTrace _ _ _

/-- Counterexample for C8: the claim says the metric side-resources are
ensured only by the Managed variant and that the bring-your-own path
performs no rendering; but `ReconcileTransport` renders them before the
protocol switch, so with the metrics flag enabled the BringYourOwn
(SecretTransporter) run also performs the render step. -/
theorem claim_C8_cex :
    (mkMetricsEnv okOps).enableMetrics = true ∧
    TransportEvent.renderMetrics
      ∈ (reconcileTransport (mkMetricsEnv okOps) .secretTransporter).trace := by
  refine ⟨rfl, ?_⟩
  exact List.mem_cons_self _ _

/-- C8 (amended): the broker metric side-resources are rendered and
applied by `ReconcileTransport` for BOTH provisioning variants, before any
of the user/topic/grant/credential calls, and the step is gated by the
metrics feature flag: with the flag disabled no rendering or applying
occurs at all, and with the flag enabled the render step is the first
event of the run and occurs nowhere later in it. -/
theorem claim_C8_amended (env : ReconcileTransportEnv) (p : TransportProtocol) :
    (∀ r, renderKafkaMetricsResources false r = ([], .ok ())) ∧
    (env.enableMetrics = false →
      TransportEvent.renderMetrics ∉ (reconcileTransport env p).trace) ∧
    (env.enableMetrics = true →
      (reconcileTransport env p).trace.head? = some .renderMetrics ∧
      TransportEvent.renderMetrics ∉ (reconcileTransport env p).trace.tail) := by
  refine ⟨fun r => rfl, ?_, ?_⟩
  · intro hm
    have hr : renderKafkaMetricsResources env.enableMetrics env.renderResult
        = ([], .ok ()) := by rw [hm]; rfl
    cases p
    · rcases hs : env.newStrimzi with e | ops
      · simp [reconcileTransport, hr, hs]
      · obtain ⟨rest, htr, hmem⟩ :=
          provisionAndPoll_trace_split ops [.newStrimziTransporter]
        have h2 : (reconcileTransport env .strimziTransporter).trace
            = (provisionAndPoll ops [.newStrimziTransporter]).trace := by
          simp [reconcileTransport, hr, hs]
        rw [h2, htr]
        simp [hmem]
    · obtain ⟨rest, htr, hmem⟩ :=
        provisionAndPoll_trace_split env.byo [.newBYOTransporter]
      have h2 : (reconcileTransport env .secretTransporter).trace
          = (provisionAndPoll env.byo [.newBYOTransporter]).trace := by
        simp [reconcileTransport, hr]
      rw [h2, htr]
      simp [hmem]
  · intro hm
    rcases hrr : env.renderResult with e0 | u0
    · have hr : renderKafkaMetricsResources env.enableMetrics env.renderResult
          = ([.renderMetrics], .error e0) := by rw [hm, hrr]; rfl
      have h2 : (reconcileTransport env p).trace = [.renderMetrics] := by
        cases p <;> simp [reconcileTransport, hr]
      rw [h2]
      exact ⟨rfl, by simp⟩
    · have hr : renderKafkaMetricsResources env.enableMetrics env.renderResult
          = ([.renderMetrics], .ok ()) := by rw [hm, hrr]; rfl
      cases p
      · rcases hs : env.newStrimzi with e | ops
        · have h2 : (reconcileTransport env .strimziTransporter).trace
              = [.renderMetrics, .newStrimziTransporter] := by
            simp [reconcileTransport, hr, hs]
          rw [h2]
          exact ⟨rfl, by simp⟩
        · obtain ⟨rest, htr, hmem⟩ := provisionAndPoll_trace_split ops
            [.renderMetrics, .newStrimziTransporter]
          have h2 : (reconcileTransport env .strimziTransporter).trace
              = (provisionAndPoll ops [.renderMetrics, .newStrimziTransporter]).trace := by
            simp [reconcileTransport, hr, hs]
          rw [h2, htr]
          exact ⟨rfl, by simp [hmem]⟩
      · obtain ⟨rest, htr, hmem⟩ := provisionAndPoll_trace_split env.byo
          [.renderMetrics, .newBYOTransporter]
        have h2 : (reconcileTransport env .secretTransporter).trace
            = (provisionAndPoll env.byo [.renderMetrics, .newBYOTransporter]).trace := by
          simp [reconcileTransport, hr]
        rw [h2, htr]
        exact ⟨rfl, by simp [hmem]⟩

/-- Witness for C8 with the flag disabled: no render event occurs on
either variant. -/
theorem claim_C8_amended_witness :
    TransportEvent.renderMetrics
      ∉ (reconcileTransport (mkTransportEnv okOps) .secretTransporter).trace :=
  (claim_C8_amended (mkTransportEnv okOps) .secretTransporter).2.1 rfl

/-- Counterexample for C10: the claim says `SetTransporter` runs whenever
a transporter instance was created; but when `CreateUser` fails the BYO
instance has been created (its construction event is in the trace) and the
run returns the error without ever reaching `SetTransporter`. -/
theorem claim_C10_cex :
    TransportEvent.newBYOTransporter
      ∈ (reconcileTransport (mkTransportEnv userFailOps) .secretTransporter).trace ∧
    (reconcileTransport (mkTransportEnv userFailOps) .secretTransporter).err ≠ none ∧
    (reconcileTransport (mkTransportEnv userFailOps) .secretTransporter).transporterSet
      = false := by
  have h : reconcileTransport (mkTransportEnv userFailOps) .secretTransporter
      = ⟨[.newBYOTransporter, .createUser defaultGlobalHubKafkaUser],
          none, some "create user failed", false⟩ := rfl
  refine ⟨?_, ?_, ?_⟩
  · rw [h]
    exact List.mem_cons_self _ _
  · rw [h]
    simp
  · rw [h]

/-- C10 (amended): `ReconcileTransport` registers the transporter in the
shared global configuration exactly when execution reaches the credential
poll, i.e. when construction and all user/topic/grant steps succeeded —
including when the poll itself fails or times out, so the error return of
a pass that fails only in credential polling is not state-atomic and
leaves the global transporter set; a failure in an earlier step (such as
`CreateUser`) returns without registering although the instance was
created. -/
theorem claim_C10_amended (env : ReconcileTransportEnv) (ops : TransporterOps)
    (p : TransportProtocol)
    (hr : (renderKafkaMetricsResources env.enableMetrics env.renderResult).2 = .ok ())
    (hc : constructedOps env p = .ok ops) :
    (ops.createUser defaultGlobalHubKafkaUser = .ok () →
      ops.createTopic (ops.generateClusterTopic globalHubClusterName) = .ok () →
      ops.grantRead defaultGlobalHubKafkaUser
          (ops.generateClusterTopic globalHubClusterName).eventTopic = .ok () →
      ops.grantRead defaultGlobalHubKafkaUser
          (ops.generateClusterTopic globalHubClusterName).statusTopic = .ok () →
      ops.grantWrite defaultGlobalHubKafkaUser
          (ops.generateClusterTopic globalHubClusterName).specTopic = .ok () →
      (reconcileTransport env p).transporterSet = true ∧
      (reconcileTransport env p).err = pollErr (waitForCredential ops) ∧
      (reconcileTransport env p).conn = pollConn ops (waitForCredential ops)) ∧
    (∀ e, ops.createUser defaultGlobalHubKafkaUser = .error e →
      (reconcileTransport env p).transporterSet = false ∧
      (reconcileTransport env p).err = some e) := by
  cases p <;> simp only [constructedOps] at hc
  · constructor
    · intro h1 h2 h3 h4 h5
      simp [reconcileTransport, hr, hc, provisionAndPoll, h1, h2, h3, h4, h5,
        waitForCredential, pollAttemptBudget]
    · intro e h1
      simp [reconcileTransport, hr, hc, provisionAndPoll, h1]
  · have hb : env.byo = ops := by
      cases hc
      rfl
    constructor
    · intro h1 h2 h3 h4 h5
      simp [reconcileTransport, hr, hb, provisionAndPoll, h1, h2, h3, h4, h5,
        waitForCredential, pollAttemptBudget]
    · intro e h1
      simp [reconcileTransport, hr, hb, provisionAndPoll, h1]

/-- Witness for C10: with the credential getter never ready, the pass
fails (returns the getter error) yet the transporter has been registered
globally. -/
theorem claim_C10_amended_witness :
    (reconcileTransport (mkTransportEnv notReadyOps) .strimziTransporter).transporterSet
      = true ∧
    (reconcileTransport (mkTransportEnv notReadyOps) .strimziTransporter).err
      = some "kafka credential not ready" := by
  have h := (claim_C10_amended (mkTransportEnv notReadyOps) notReadyOps
    .strimziTransporter rfl rfl).1 rfl rfl rfl rfl rfl
  exact ⟨h.1, by rw [h.2.1]; rfl⟩
